import Mathlib

/-!
Shallow embedding of corobench's deferred-computation primitives.

The source (C++20) defines three variants of the same contract:
  * `async_callback`  — continuation-passing style (callback_async.hpp)
  * `async_coro`      — coroutine Task with exception capture (coroutine_async.hpp)
  * `async_coro_opt`  — coroutine Task without checks (coroutine_optimized.hpp)

Modeling conventions:
  * C++ `int` is modeled as unbounded `Int`: signed overflow is undefined
    behavior in C++, so the unbounded model covers the defined-behavior domain.
  * The loop `for (int i = 0; i < x; i = i + 1)` runs exactly `x.toNat`
    iterations; it is embedded as a structurally recursive iteration on that
    fuel, threading the loop counter `i` and the accumulator `result`.
    For the loop counter `i >= 0`, the source's `i & 1` equals `i % 2`.
  * Exceptions and thrown runtime errors are a single type `Exc`; fallible
    accessors return `Except Exc Int`.
  * A coroutine frame is its promise plus the done flag (`handle.done()` is
    true once the coroutine is suspended at its final suspend point).  All
    coroutines here use `initial_suspend = suspend_never`, so the body runs
    eagerly to completion during construction, before any observation.
  * Dereferencing a null coroutine handle is undefined behavior; functions
    that do so without a check are embedded with result type `Option _`,
    `none` standing for the undefined case.
-/

/-- Exceptions that can travel through a Task: the two `std::runtime_error`s
thrown by the checking accessors, and an arbitrary fault raised by a
computation body (used to model exception capture generically). -/
inductive Exc where
  | invalidHandleErr
  | noValueErr
  | fault (code : Nat)
deriving DecidableEq

instance {ε α : Type} [DecidableEq ε] [DecidableEq α] : DecidableEq (Except ε α) :=
  fun a b =>
  match a, b with
  | .ok a, .ok b =>
    if h : a = b then isTrue (by rw [h])
    else isFalse (by intro hc; cases hc; exact h rfl)
  | .ok _, .error _ => isFalse (by intro hc; cases hc)
  | .error _, .ok _ => isFalse (by intro hc; cases hc)
  | .error e, .error f =>
    if h : e = f then isTrue (by rw [h])
    else isFalse (by intro hc; cases hc; exact h rfl)

namespace async_callback

/-- Loop of `async_compute` (callback_async.hpp lines 13-18):
`result = 0; for (i = 0; i < x; i = i + 1) result += i * 31 + (i & 1)`.
`n` is the remaining iteration count `(x - i).toNat`. -/
def computeIter (i acc : Int) : Nat → Int
  | 0 => acc
  | n + 1 => computeIter (i + 1) (acc + (i * 31 + i % 2)) n

/-- `async_compute<T>(int x, Callback<T> callback)`: runs the workload loop,
then invokes the callback with the result (callback_async.hpp lines 12-20). -/
def async_compute {α : Type} (x : Int) (callback : Int → α) : α :=
  callback (computeIter 0 0 x.toNat)

/-- `async_chain(x, final_callback)`: nested continuations
(callback_async.hpp lines 22-28). -/
def async_chain {α : Type} (x : Int) (final_callback : Int → α) : α :=
  async_compute x (fun result1 =>
    async_compute (result1 % 100) (fun result2 =>
      final_callback (result1 + result2)))

/-- `async_complex_chain(x, final_callback)`: three nested continuations
(callback_async.hpp lines 30-39). -/
def async_complex_chain {α : Type} (x : Int) (final_callback : Int → α) : α :=
  async_compute x (fun v1 =>
    async_compute (v1 % 100) (fun v2 =>
      async_compute (v2 % 50) (fun v3 =>
        final_callback (v1 + v2 + v3))))

end async_callback

namespace async_coro

/-- `task<int>::promise_type` completion cell (coroutine_async.hpp lines 11-13):
`std::optional<T> value; std::exception_ptr exception;`. -/
structure promise_type where
  value : Option Int
  exception : Option Exc
deriving DecidableEq

/-- The promise as default-constructed at coroutine start: empty optional,
null exception pointer. -/
def initPromise : promise_type := { value := none, exception := none }

/-- `void return_value(T val) { value = std::move(val); }`
(coroutine_async.hpp line 22).  Note: assigns unconditionally. -/
def promise_type.return_value (p : promise_type) (val : Int) : promise_type :=
  { p with value := some val }

/-- `void unhandled_exception() { exception = std::current_exception(); }`
(coroutine_async.hpp line 24). -/
def promise_type.unhandled_exception (p : promise_type) (e : Exc) : promise_type :=
  { p with exception := some e }

/-- A coroutine frame: its promise plus whether the coroutine is suspended at
its final suspend point (`handle.done()`). -/
structure coroFrame where
  promise : promise_type
  isDone : Bool
deriving DecidableEq

/-- `task<int>`: owns an optional coroutine handle; `none` is the null handle
of a moved-from task. -/
structure task where
  handle : Option coroFrame
deriving DecidableEq

/-- Runs a coroutine body to completion eagerly (promise construction,
`initial_suspend = suspend_never`, then `co_return` → `return_value` or an
escaped exception → `unhandled_exception`, then final suspend, which leaves
`handle.done()` true) and returns the owning task. -/
def runBody (body : Except Exc Int) : task :=
  { handle := some
      { promise :=
          (match body with
           | .ok v => initPromise.return_value v
           | .error e => initPromise.unhandled_exception e),
        isDone := true } }

/-- `T get()` (coroutine_async.hpp lines 51-66): null-handle check, then
rethrow a stored exception, then `NoValue` check, then return the value. -/
def task.get (t : task) : Except Exc Int :=
  match t.handle with
  | none => .error .invalidHandleErr
  | some f =>
    match f.promise.exception with
    | some e => .error e
    | none =>
      match f.promise.value with
      | some v => .ok v
      | none => .error .noValueErr

/-- `bool done() const { return handle && handle.done(); }` -/
def task.done (t : task) : Bool :=
  match t.handle with
  | none => false
  | some f => f.isDone

/-- The awaiter `struct awaiter { std::coroutine_handle<promise_type> handle; ... }`
(coroutine_async.hpp lines 71-94). -/
structure awaiter where
  handle : Option coroFrame

/-- `operator co_await() noexcept { return awaiter{handle}; }` -/
def task.co_await_op (t : task) : awaiter := { handle := t.handle }

/-- `bool await_ready() const noexcept { return handle.done(); }` — calling
`done()` on a null handle is undefined, hence the `Option`. -/
def awaiter.await_ready (a : awaiter) : Option Bool :=
  a.handle.map (fun f => f.isDone)

/-- `T await_resume()`: identical checks to `get`
(coroutine_async.hpp lines 78-93). -/
def awaiter.await_resume (a : awaiter) : Except Exc Int :=
  match a.handle with
  | none => .error .invalidHandleErr
  | some f =>
    match f.promise.exception with
    | some e => .error e
    | none =>
      match f.promise.value with
      | some v => .ok v
      | none => .error .noValueErr

/-- A full `co_await t` expression.  `await_ready` reports `handle.done()`;
every producer in this single-threaded design has already run to completion
(eager start), so the await never actually suspends and reduces to
`await_resume`. -/
def task.co_await (t : task) : Except Exc Int :=
  (t.co_await_op).await_resume

/-- Move construction `task(task &&other)` (coroutine_async.hpp line 29):
returns (the new task, the source after the move). -/
def task.moveConstruct (other : task) : task × task :=
  ({ handle := other.handle }, { handle := none })

/-- Move assignment `task &operator=(task &&other)` (coroutine_async.hpp
lines 31-40).  `aliased` encodes the `this != &other` identity test, which a
value-level embedding cannot compute: when `aliased` is true, `self` and
`other` are the same object and the body is skipped.  Destroying the
previously owned handle has no further observable effect in this model.
Returns (new state of `*this`, new state of `other`). -/
def task.moveAssign (self other : task) (aliased : Bool) : task × task :=
  if aliased then (self, other)
  else ({ handle := other.handle }, { handle := none })

/-- Loop of `async_compute` (coroutine_async.hpp lines 106-111), identical to
the callback variant's loop. -/
def computeIter (i acc : Int) : Nat → Int
  | 0 => acc
  | n + 1 => computeIter (i + 1) (acc + (i * 31 + i % 2)) n

/-- `task<int> async_compute(int x)` (coroutine_async.hpp lines 105-113):
the body runs eagerly and `co_return`s the loop result; the pure loop cannot
throw, so the value branch of the protocol is taken. -/
def async_compute (x : Int) : task :=
  runBody (.ok (computeIter 0 0 x.toNat))

/-- `task<int> async_chain(int x)` (coroutine_async.hpp lines 115-119):
`val1 = co_await async_compute(x); val2 = co_await async_compute(val1 % 100);
co_return val1 + val2`.  An exception escaping a `co_await` propagates to
`unhandled_exception` via the error branch of `runBody`. -/
def async_chain (x : Int) : task :=
  runBody
    (match (async_compute x).co_await with
     | .error e => .error e
     | .ok val1 =>
       match (async_compute (val1 % 100)).co_await with
       | .error e => .error e
       | .ok val2 => .ok (val1 + val2))

/-- `task<int> async_complex_chain(int x)` (coroutine_async.hpp lines 121-126). -/
def async_complex_chain (x : Int) : task :=
  runBody
    (match (async_compute x).co_await with
     | .error e => .error e
     | .ok v1 =>
       match (async_compute (v1 % 100)).co_await with
       | .error e => .error e
       | .ok v2 =>
         match (async_compute (v2 % 50)).co_await with
         | .error e => .error e
         | .ok v3 => .ok (v1 + v2 + v3))

/-- Instrumentation world: counts how many times the workload kernel loop has
been entered, to state "no additional kernel work" claims. -/
structure kernelWorld where
  kernelRuns : Nat
deriving DecidableEq

/-- `async_compute` threaded through the instrumentation world: constructing a
task runs the kernel exactly once. -/
def async_compute_counted (x : Int) (w : kernelWorld) : task × kernelWorld :=
  (async_compute x, { kernelRuns := w.kernelRuns + 1 })

/-- `get` threaded through the instrumentation world: the source of `get`
(coroutine_async.hpp lines 51-66) only reads the promise fields — it performs
no kernel work and mutates nothing, so the world passes through unchanged. -/
def get_counted (t : task) (w : kernelWorld) : Except Exc Int × kernelWorld :=
  (t.get, w)

end async_coro

namespace async_coro_opt

/-- `task<T>::promise_type` of the optimized variant
(coroutine_optimized.hpp lines 10-27): a bare `T value;` member, no exception
slot. `none` models the indeterminate value before any write. -/
structure promise_type where
  value : Option Int
deriving DecidableEq

/-- A coroutine frame of the optimized variant. -/
structure coroFrame where
  promise : promise_type
  isDone : Bool
deriving DecidableEq

/-- The optimized `task<T>`: owns an optional coroutine handle. -/
structure task where
  handle : Option coroFrame
deriving DecidableEq

/-- `T get() noexcept { return handle.promise().value; }`
(coroutine_optimized.hpp line 54): no null-handle check and no readiness
check; on a moved-from task this dereferences a null handle, which is
undefined behavior (`none`). -/
def task.get (t : task) : Option Int :=
  t.handle.bind (fun f => f.promise.value)

/-- Move construction `task(task &&other)` (coroutine_optimized.hpp line 31):
returns (the new task, the source after the move). -/
def task.moveConstruct (other : task) : task × task :=
  ({ handle := other.handle }, { handle := none })

/-- Loop of `async_compute` (coroutine_optimized.hpp lines 77-81), identical
to the other variants' loops. -/
def computeIter (i acc : Int) : Nat → Int
  | 0 => acc
  | n + 1 => computeIter (i + 1) (acc + (i * 31 + i % 2)) n

/-- `task<int> async_compute(int x)` (coroutine_optimized.hpp lines 76-83):
runs eagerly, `return_value` stores the loop result, final suspend leaves the
frame done. -/
def async_compute (x : Int) : task :=
  { handle := some { promise := { value := some (computeIter 0 0 x.toNat) }, isDone := true } }

end async_coro_opt

/-- Spec formula (§4.1): the workload kernel reference algorithm
`Σ_{i=0}^{w-1} (i*31 + (i mod 2))`. -/
def specComputeSum (w : Nat) : Int :=
  ∑ i in Finset.range w, ((i : Int) * 31 + (i : Int) % 2)

/-- The workload kernel `f` as a plain function (the loop shared verbatim by
all variants), used to state closed forms. -/
def kernelF (x : Int) : Int := async_coro.computeIter 0 0 x.toNat

/-- Spec formula claimed in C2 (§8 as frozen): `f(x) + f(x mod 100)`. -/
def chainClaimedForm (x : Int) : Int := kernelF x + kernelF (x % 100)

/-- Closed form actually computed by the two-step chain:
`f(x) + f(f(x) mod 100)` (spec §4.4 and the `chain(1000)` scenario). -/
def chainClosedForm (x : Int) : Int := kernelF x + kernelF (kernelF x % 100)

/-- Closed form of the three-step chain (spec §8):
`f(x) + f(f(x) mod 100) + f(f(f(x) mod 100) mod 50)`. -/
def complexChainClosedForm (x : Int) : Int :=
  kernelF x + kernelF (kernelF x % 100)
    + kernelF (kernelF (kernelF x % 100) % 50)

lemma computeIter_callback_eq (n : Nat) : ∀ i acc : Int,
    async_callback.computeIter i acc n = async_coro.computeIter i acc n := by
  induction n with
  | zero => intro i acc; rfl
  | succ n ih =>
    intro i acc
    simp only [async_callback.computeIter, async_coro.computeIter]
    exact ih _ _

lemma computeIter_opt_eq (n : Nat) : ∀ i acc : Int,
    async_coro_opt.computeIter i acc n = async_coro.computeIter i acc n := by
  induction n with
  | zero => intro i acc; rfl
  | succ n ih =>
    intro i acc
    simp only [async_coro_opt.computeIter, async_coro.computeIter]
    exact ih _ _

lemma callback_chain_value (x : Int) :
    async_callback.async_chain x (fun v => v) = chainClosedForm x := by
  show async_callback.computeIter 0 0 x.toNat
      + async_callback.computeIter 0 0
          ((async_callback.computeIter 0 0 x.toNat) % 100).toNat
    = chainClosedForm x
  simp only [computeIter_callback_eq]
  rfl

lemma callback_complex_chain_value (x : Int) :
    async_callback.async_complex_chain x (fun v => v) = complexChainClosedForm x := by
  show async_callback.computeIter 0 0 x.toNat
      + async_callback.computeIter 0 0
          ((async_callback.computeIter 0 0 x.toNat) % 100).toNat
      + async_callback.computeIter 0 0
          ((async_callback.computeIter 0 0
            ((async_callback.computeIter 0 0 x.toNat) % 100).toNat) % 50).toNat
    = complexChainClosedForm x
  simp only [computeIter_callback_eq]
  rfl

lemma computeIter_succ (i acc : Int) (n : Nat) :
    async_coro.computeIter i acc (n + 1)
      = async_coro.computeIter i acc n + ((i + n) * 31 + (i + n) % 2) := by
  induction n generalizing i acc with
  | zero => simp [async_coro.computeIter]
  | succ n ih =>
    show async_coro.computeIter (i + 1) (acc + (i * 31 + i % 2)) (n + 1) = _
    rw [ih]
    show async_coro.computeIter (i + 1) (acc + (i * 31 + i % 2)) n + _
      = async_coro.computeIter (i + 1) (acc + (i * 31 + i % 2)) n + _
    have h1 : (i + 1) + (n : Int) = i + ((n : Int) + 1) := by ring
    push_cast
    rw [h1]

lemma computeIter_eq_specSum (n : Nat) :
    async_coro.computeIter 0 0 n = specComputeSum n := by
  induction n with
  | zero => simp [async_coro.computeIter, specComputeSum]
  | succ n ih =>
    rw [computeIter_succ, ih]
    simp only [specComputeSum]
    rw [Finset.sum_range_succ]
    simp

/-- C4: for every non-negative workload `w`, the kernel returns
`Σ_{i=0}^{w-1} (i*31 + (i mod 2))`; in particular `compute 0 = 0` and
`compute 4 = 188`. -/
theorem compute_kernel_is_spec_sum (w : Nat) :
    (async_coro.async_compute (w : Int)).get = Except.ok (specComputeSum w)
      ∧ (async_coro.async_compute 0).get = Except.ok 0
      ∧ (async_coro.async_compute 4).get = Except.ok 188 := by
  refine ⟨?_, rfl, rfl⟩
  show Except.ok (async_coro.computeIter 0 0 (w : Int).toNat)
    = Except.ok (specComputeSum w)
  rw [Int.toNat_natCast, computeIter_eq_specSum]

/-- C2 (amended): for every `x`, the two-step chain — in both the
continuation-passing and the suspension variant — equals the closed form
`f(x) + f(f(x) mod 100)`. -/
theorem two_step_chain_closed_form (x : Int) :
    (async_coro.async_chain x).get = Except.ok (chainClosedForm x)
      ∧ async_callback.async_chain x (fun v => v) = chainClosedForm x :=
  ⟨rfl, callback_chain_value x⟩

/-- C2 counterexample: at `x = 2` the chain yields `32 + f(32) = 15424`,
while the claimed closed form `f(x) + f(x mod 100)` yields `32 + 32 = 64`. -/
theorem two_step_chain_claimed_form_counterexample :
    (async_coro.async_chain 2).get ≠ Except.ok (chainClaimedForm 2)
      ∧ async_callback.async_chain 2 (fun v => v) ≠ chainClaimedForm 2
      ∧ (async_coro.async_chain 2).get = Except.ok 15424
      ∧ chainClaimedForm 2 = 64 :=
  ⟨by decide, by decide, rfl, rfl⟩

/-- C1: for every `x`, the value the continuation-passing
`async_chain(x, final_callback)` passes to its final callback is exactly the
value `get()` returns on the suspension variant's `async_chain(x)` task. -/
theorem chain_cps_equals_suspension (x : Int) :
    ∃ v : Int, (async_coro.async_chain x).get = Except.ok v
      ∧ ∀ (α : Type) (k : Int → α), async_callback.async_chain x k = k v :=
  ⟨chainClosedForm x, rfl, fun _ k => by
    show k (async_callback.async_chain x (fun v => v)) = k (chainClosedForm x)
    rw [callback_chain_value x]⟩

/-- C3: for every `x`, the three-step chain — in both variants — equals
`f(x) + f(f(x) mod 100) + f(f(f(x) mod 100) mod 50)`; in particular at
`x = 8`. -/
theorem complex_chain_closed_form (x : Int) :
    (async_coro.async_complex_chain x).get = Except.ok (complexChainClosedForm x)
      ∧ async_callback.async_complex_chain x (fun v => v) = complexChainClosedForm x
      ∧ (async_coro.async_complex_chain 8).get = Except.ok (complexChainClosedForm 8) :=
  ⟨rfl, callback_complex_chain_value x, rfl⟩

/-- C9: for every `x ≤ 0` the loop guard `i < x` is false at entry, so
`async_compute(x)` completes successfully with result 0 in all three
variants. -/
theorem nonpositive_workload_yields_zero (x : Int) (h : x ≤ 0) :
    (async_coro.async_compute x).get = Except.ok 0
      ∧ async_callback.async_compute x (fun v => v) = 0
      ∧ (async_coro_opt.async_compute x).get = some 0 := by
  have hx : x.toNat = 0 := Int.toNat_of_nonpos h
  refine ⟨?_, ?_, ?_⟩
  · show Except.ok (async_coro.computeIter 0 0 x.toNat) = Except.ok 0
    rw [hx]
    rfl
  · show async_callback.computeIter 0 0 x.toNat = 0
    rw [hx]
    rfl
  · show some (async_coro_opt.computeIter 0 0 x.toNat) = some 0
    rw [hx]
    rfl

/-- Witness for C9 at the concrete input `x = -5`. -/
theorem nonpositive_workload_yields_zero_witness :
    (-5 : Int) ≤ 0
      ∧ ((async_coro.async_compute (-5)).get = Except.ok 0
        ∧ async_callback.async_compute (-5) (fun v => v) = 0
        ∧ (async_coro_opt.async_compute (-5)).get = some 0) :=
  ⟨by decide, nonpositive_workload_yields_zero (-5) (by decide)⟩

/-- C5 (amended): in the checking variant, after a move the source task is
empty — `get` and the awaiter's `await_resume` on it fail with the
InvalidTask error — while the destination observes the original outcome
unchanged; likewise for move assignment onto a distinct object.  (The
optimized variant performs no such check; see the counterexample.) -/
theorem move_transfers_ownership_checked (t u : async_coro.task) :
    (t.moveConstruct).2.get = Except.error Exc.invalidHandleErr
      ∧ ((t.moveConstruct).2.co_await_op).await_resume = Except.error Exc.invalidHandleErr
      ∧ (t.moveConstruct).1.get = t.get
      ∧ (t.moveConstruct).1.handle = t.handle
      ∧ (t.moveConstruct).2.handle = none
      ∧ (u.moveAssign t false).2.get = Except.error Exc.invalidHandleErr
      ∧ (u.moveAssign t false).1.get = t.get :=
  ⟨rfl, rfl, rfl, rfl, rfl, rfl, rfl⟩

/-- C5 counterexample: in the optimized variant, `get` on the moved-from task
performs no validity check at all — it dereferences the null handle, which is
undefined (`none` in the embedding), not an InvalidTask failure as the claim
states for every Task. -/
theorem moved_from_opt_get_unchecked_counterexample :
    (async_coro_opt.task.moveConstruct (async_coro_opt.async_compute 4)).2.get = none :=
  rfl

/-- C10: self-move-assignment hits the `this != &other` guard and leaves the
task completely unchanged: same handle, same subsequent `get` outcome. -/
theorem self_move_assignment_is_noop (t : async_coro.task) :
    t.moveAssign t true = (t, t)
      ∧ (t.moveAssign t true).1.get = t.get
      ∧ (t.moveAssign t true).1.handle = t.handle :=
  ⟨rfl, rfl, rfl⟩

/-- C6: a completed task's `get` returns the stored value or re-raises the
stored failure — an exception escaping the body is captured into the cell by
`unhandled_exception` (never propagated out of the computation unit) and
surfaces on observation — and a done frame holding neither value nor
exception makes `get` fail with the NoValue error. -/
theorem get_returns_stored_outcome (body : Except Exc Int) (t : async_coro.task)
    (f : async_coro.coroFrame) (hh : t.handle = some f)
    (he : f.promise.exception = none) (hv : f.promise.value = none) :
    (async_coro.runBody body).get = body
      ∧ t.get = Except.error Exc.noValueErr := by
  constructor
  · cases body <;> rfl
  · rcases t with ⟨th⟩
    simp only at hh
    subst hh
    simp only [async_coro.task.get, he, hv]

/-- Witness for C6: a captured fault is re-raised by `get`, and a frame with
an empty cell yields the NoValue error. -/
theorem get_returns_stored_outcome_witness :
    (async_coro.task.mk (some ⟨async_coro.initPromise, true⟩)).handle
        = some ⟨async_coro.initPromise, true⟩
      ∧ async_coro.initPromise.exception = none
      ∧ async_coro.initPromise.value = none
      ∧ ((async_coro.runBody (Except.error (Exc.fault 7))).get
            = Except.error (Exc.fault 7)
        ∧ (async_coro.task.mk (some ⟨async_coro.initPromise, true⟩)).get
            = Except.error Exc.noValueErr) :=
  ⟨rfl, rfl, rfl,
    get_returns_stored_outcome (Except.error (Exc.fault 7)) _ _ rfl rfl rfl⟩

/-- C7: on a completed task, `get` returns the identical value on a first and
a second call and performs no kernel work (the instrumentation world is
unchanged), while constructing a task runs the kernel exactly once. -/
theorem get_idempotent_no_kernel_rework (t : async_coro.task)
    (w : async_coro.kernelWorld) (v x : Int) (h : t.get = Except.ok v) :
    (async_coro.get_counted t w).1 = Except.ok v
      ∧ (async_coro.get_counted t ((async_coro.get_counted t w).2)).1 = Except.ok v
      ∧ (async_coro.get_counted t ((async_coro.get_counted t w).2)).2 = w
      ∧ (async_coro.get_counted t w).2 = w
      ∧ (async_coro.async_compute_counted x w).2.kernelRuns = w.kernelRuns + 1 := by
  simp [async_coro.get_counted, async_coro.async_compute_counted, h]

/-- Witness for C7 on the completed task `async_compute 4` (value 188). -/
theorem get_idempotent_no_kernel_rework_witness :
    (async_coro.async_compute 4).get = Except.ok 188
      ∧ ((async_coro.get_counted (async_coro.async_compute 4) ⟨0⟩).1 = Except.ok 188
        ∧ (async_coro.get_counted (async_coro.async_compute 4)
            ((async_coro.get_counted (async_coro.async_compute 4) ⟨0⟩).2)).1 = Except.ok 188
        ∧ (async_coro.get_counted (async_coro.async_compute 4)
            ((async_coro.get_counted (async_coro.async_compute 4) ⟨0⟩).2)).2 = ⟨0⟩
        ∧ (async_coro.get_counted (async_coro.async_compute 4) ⟨0⟩).2 = ⟨0⟩
        ∧ (async_coro.async_compute_counted 3 ⟨0⟩).2.kernelRuns = (0 : Nat) + 1) :=
  ⟨rfl, get_idempotent_no_kernel_rework (async_coro.async_compute 4) ⟨0⟩ 188 3 rfl⟩

/-- C8 (amended): `return_value` performs no DoubleWrite check — a second
write simply overwrites the stored value.  Reading before any write fails
with the NoValue signal (blocking path) or reports not-ready (await path) in
the checking variant; in the optimized variant the blocking read performs no
readiness check and passes the cell's content through unconditionally, so on
an unwritten cell it returns the indeterminate value rather than blocking,
suspending, or failing. -/
theorem completion_cell_write_read (p : async_coro.promise_type) (v w : Int)
    (c : Option Int) (d : Bool) :
    ((p.return_value v).return_value w).value = some w
      ∧ (async_coro.task.mk (some ⟨async_coro.initPromise, false⟩)).get
          = Except.error Exc.noValueErr
      ∧ (async_coro.awaiter.mk (some ⟨async_coro.initPromise, false⟩)).await_ready
          = some false
      ∧ (async_coro_opt.task.mk (some ⟨⟨c⟩, d⟩)).get = c :=
  ⟨rfl, rfl, rfl, rfl⟩

/-- C8 counterexample: writing 2 into a cell already holding 1 does not fail
with DoubleWrite — `return_value` has no error path and silently overwrites —
and in the optimized variant the blocking read of a not-yet-written,
not-done cell neither blocks nor fails with a not-ready signal: the unchecked
`get` returns the cell's indeterminate pre-write value (`none`). -/
theorem completion_cell_double_write_counterexample :
    (async_coro.initPromise.return_value 1).return_value 2
        = { value := some 2, exception := none }
      ∧ ((async_coro.initPromise.return_value 1).return_value 2).value ≠ some 1
      ∧ (async_coro_opt.task.mk (some ⟨⟨none⟩, false⟩)).get = none :=
  ⟨rfl, by decide, rfl⟩
